import Mathlib

/-!
# Verification of the fawap-gpu-node session / frame-pipeline core

Shallow embedding of the GPU-node source (src/config.py, src/main.py,
src/webrtc_server.py, src/frame_processor.py, src/swap_engine.py,
src/signaling_client.py) and proofs about it.

Frames are modelled as numpy-style arrays: a shape (height, width and an
optional channel dimension — `chan = none` models a 2-dimensional grayscale
array) together with a flat list of rational pixel values (uint8 data is the
special case of integral values in [0, 255]; rationals let the model also
describe float-valued intermediate results, whose `astype(np.uint8)`
quantization is a floor after clipping).

External collaborators (the InsightFace detector, `swapper.get`, the aiortc
negotiation and the orchestrator HTTP endpoints) are modelled as oracle
fields / function parameters: the embedding fixes only the control flow the
repository's own code performs around them.
-/

/-- A numpy array as produced by `VideoFrame.to_ndarray` / handled by
`FrameProcessor`: `chan = none` models a 2-dimensional `(h, w)` array,
`chan = some c` a 3-dimensional `(h, w, c)` array.  `px` is the flattened
pixel data in row-major order. -/
structure NPFrame where
  h : Nat
  w : Nat
  chan : Option Nat
  px : List ℚ
deriving DecidableEq, Repr

/-- `numpy.ndarray.size`: the product of the dimensions. -/
def NPFrame.size (f : NPFrame) : Nat := f.h * f.w * (f.chan.getD 1)

/-- `cv2.cvtColor(frame, cv2.COLOR_GRAY2BGR)` on flattened data: every
gray sample is replicated into the three BGR channels. -/
def grayToBgr (px : List ℚ) : List ℚ := px.flatMap (fun v => [v, v, v])

/-- `cv2.cvtColor(frame, cv2.COLOR_BGRA2BGR)` on flattened data: the alpha
channel of each 4-sample pixel is dropped. -/
def bgraToBgr : List ℚ → List ℚ
  | b :: g :: r :: _ :: rest => b :: g :: r :: bgraToBgr rest
  | _ => []

/-- `FrameProcessor.preprocess_frame` (src/frame_processor.py lines 25-45)
as instantiated in main.py line 53: `FrameProcessor()` is constructed with
`target_size = None`, so the resize branch is dead and only the layout
fix-up runs: 2-dim → replicate into 3 channels, 4 channels → drop alpha,
otherwise the frame is returned unchanged. -/
def preprocess_frame (f : NPFrame) : NPFrame :=
  match f.chan with
  | none => { h := f.h, w := f.w, chan := some 3, px := grayToBgr f.px }
  | some c =>
    if c = 4 then { h := f.h, w := f.w, chan := some 3, px := bgraToBgr f.px }
    else f

/-- `np.clip(·, 0, 255).astype(np.uint8)` on one sample: clip into
[0, 255] and truncate to an integer (truncation equals floor because the
clipped value is non-negative). -/
def clip255 (x : ℚ) : ℚ := ((max 0 (min 255 x)).floor : ℤ)

/-- The substitute frame `np.zeros((480, 640, 3), dtype=np.uint8)` from
`FrameProcessor.postprocess_frame`. -/
def blackFrame : NPFrame :=
  { h := 480, w := 640, chan := some 3, px := List.replicate (480 * 640 * 3) 0 }

/-- `FrameProcessor.postprocess_frame` (src/frame_processor.py lines 47-65):
`None` input or a zero-size array is replaced by the fixed black frame;
otherwise every sample is clipped to [0, 255] and cast to uint8. -/
def postprocess_frame (f : Option NPFrame) : NPFrame :=
  match f with
  | none => blackFrame
  | some g =>
    if g.size = 0 then blackFrame
    else { h := g.h, w := g.w, chan := g.chan, px := g.px.map clip255 }

/-- A rational is a uint8 sample: an integer in [0, 255]. -/
def isU8 (v : ℚ) : Prop := ∃ n : ℕ, n ≤ 255 ∧ v = (n : ℚ)

/-! ## Swap engine and the per-frame pipeline (`ProcessedVideoTrack.recv`) -/

/-- A detected face as returned by `SwapEngine.detect_faces`: bounding box,
embedding and detector confidence (src/swap_engine.py lines 111-165; all
three detector branches return the detector's candidates in detector output
order). -/
structure Face where
  bbox : List ℤ
  embedding : List ℚ
  det_score : ℚ
deriving DecidableEq, Repr

/-- An `av.VideoFrame`: pixel content (`to_ndarray(format="bgr24")`),
presentation timestamp and time base. -/
structure VideoFrame where
  img : NPFrame
  pts : ℤ
  time_base : ℚ
deriving DecidableEq, Repr

/-- Oracle model of `SwapEngine`'s external collaborators:
`swapperSome` is `self.swapper is not None`, `swapperHasGet` is
`hasattr(self.swapper, 'get')`, `detect` is the external detector behind
`detect_faces` (`.error` models the call raising), and `swapGet` is
`self.swapper.get(target_frame, target_face, source_frame, source_face)`
(`.error ()` models it raising; `.ok none` models it returning `None`). -/
structure SwapEngineModel where
  swapperSome : Bool
  swapperHasGet : Bool
  detect : NPFrame → Except Unit (List Face)
  swapGet : NPFrame → Face → NPFrame → Face → Except Unit (Option NPFrame)

/-- `SwapEngine.swap_face` (src/swap_engine.py lines 167-214): if the
swapper model is not loaded, return the target frame; detect source/target
faces when not supplied, returning the target frame if none are found
(detector exceptions propagate); then call `swapper.get` inside a
try/except that returns the target frame on exception, or fall back to
`_fallback_swap` (which returns the target frame) when the swapper has no
`get`. -/
def SwapEngineModel.swap_face (e : SwapEngineModel)
    (source_frame target_frame : NPFrame)
    (source_face target_face : Option Face) : Except Unit (Option NPFrame) :=
  if e.swapperSome = false then .ok (some target_frame)
  else
    match (match source_face with
           | some sf => Except.ok (Sum.inl sf)
           | none =>
             match e.detect source_frame with
             | .error u => .error u
             | .ok [] => .ok (Sum.inr ())
             | .ok (f :: _) => .ok (Sum.inl f)) with
    | .error u => .error u
    | .ok (Sum.inr _) => .ok (some target_frame)
    | .ok (Sum.inl sf) =>
      match (match target_face with
             | some tf => Except.ok (Sum.inl tf)
             | none =>
               match e.detect target_frame with
               | .error u => .error u
               | .ok [] => .ok (Sum.inr ())
               | .ok (f :: _) => .ok (Sum.inl f)) with
      | .error u => .error u
      | .ok (Sum.inr _) => .ok (some target_frame)
      | .ok (Sum.inl tf) =>
        if e.swapperSome && e.swapperHasGet then
          match e.swapGet target_frame tf source_frame sf with
          | .error _ => .ok (some target_frame)
          | .ok r => .ok r
        else .ok (some target_frame)

/-- Mutable per-track state of `ProcessedVideoTrack`: the identity cache
`self.source_face` and `self.frame_count`. -/
structure TrackState where
  source_face : Option Face
  frame_count : Nat
deriving DecidableEq, Repr

/-- The capture step of `recv` (src/webrtc_server.py lines 49-54): if the
cache already holds a face it is kept; otherwise `detect_faces` runs on the
preprocessed frame (its exception propagates — this call is not wrapped in
a try) and the cache becomes the first detected face, staying empty when
the detector returns no faces. -/
def captureStep (e : SwapEngineModel) (cache : Option Face) (img : NPFrame) :
    Except Unit (Option Face) :=
  match cache with
  | some sf => .ok (some sf)
  | none =>
    match e.detect img with
    | .error u => .error u
    | .ok faces => .ok faces.head?

/-- The swap step of `recv` (src/webrtc_server.py lines 56-67): when a
source face is cached, `swap_face` is called with the current frame as both
source and target and `target_face=None`, inside a try/except that leaves
the frame unchanged on exception; the variable `img` takes whatever
`swap_face` returned (possibly `None`). With no cached face the frame
passes through. -/
def swapStage (e : SwapEngineModel) (sf? : Option Face) (img : NPFrame) :
    Option NPFrame :=
  match sf? with
  | none => some img
  | some sf =>
    match e.swap_face img img (some sf) none with
    | .error _ => some img
    | .ok r => r

/-- `ProcessedVideoTrack.recv` (src/webrtc_server.py lines 39-80) for one
frame: preprocess, capture, swap, postprocess, re-attach `pts` and
`time_base`, increment `frame_count`.  The only uncaught exception is the
capture-step detector call; on it no state mutation has happened yet. -/
def recv (e : SwapEngineModel) (st : TrackState) (frame : VideoFrame) :
    Except Unit (TrackState × VideoFrame) :=
  let img := preprocess_frame frame.img
  match captureStep e st.source_face img with
  | .error u => .error u
  | .ok sf? =>
    .ok ({ source_face := sf?, frame_count := st.frame_count + 1 },
         { img := postprocess_frame (swapStage e sf? img),
           pts := frame.pts, time_base := frame.time_base })

/-- State reached after one `recv`; on an exception the state is unchanged
(`recv` raises only before any mutation). -/
def stepFrame (e : SwapEngineModel) (st : TrackState) (f : VideoFrame) :
    TrackState :=
  match recv e st f with
  | .ok p => p.1
  | .error _ => st

/-- State after a sequence of frames is processed. -/
def runFrames (e : SwapEngineModel) (st : TrackState)
    (frames : List VideoFrame) : TrackState :=
  frames.foldl (stepFrame e) st

/-- Run `recv` over a list of frames collecting the output frames;
`.error` if any `recv` call raised. -/
def runAll (e : SwapEngineModel) (st : TrackState) :
    List VideoFrame → Except Unit (TrackState × List VideoFrame)
  | [] => .ok (st, [])
  | f :: rest =>
    match recv e st f with
    | .error u => .error u
    | .ok (st', out) =>
      match runAll e st' rest with
      | .error u => .error u
      | .ok (st'', outs) => .ok (st'', out :: outs)

/-- Modelled from the spec: the candidate-selection rule §4.1 describes —
"select the one with the highest confidence score (tie-break: first in
detector output order)".  Used only to compare the spec's rule with the
code's `faces[0]`. -/
def bestFace (faces : List Face) : Option Face :=
  faces.foldl
    (fun best f =>
      match best with
      | none => some f
      | some b => if f.det_score > b.det_score then some f else best)
    none

/-! ## WebRTC server, signaling paths and configuration -/

/-- `RTCPeerConnection.connectionState` values relevant to the model.
`new` is the state of a freshly created peer connection. -/
inductive ConnState
  | new
  | connecting
  | connected
  | failed
  | closed
deriving DecidableEq, Repr

/-- Terminal connection states (the ones `on_connectionstatechange` reacts
to by discarding the peer connection). -/
def ConnState.isTerminal : ConnState → Bool
  | .failed => true
  | .closed => true
  | _ => false

/-- `WebRTCServer` state: `self.pcs`, the collection of peer connections,
abstracted to their connection states. -/
structure ServerState where
  pcs : List ConnState
deriving DecidableEq, Repr

/-- Number of sessions in a non-terminal state. -/
def nonTerminalCount (st : ServerState) : Nat :=
  (st.pcs.filter (fun c => !c.isTerminal)).length

/-- `WebRTCServer.get_active_connections` (src/webrtc_server.py lines
159-161): the number of peer connections whose state is `connected`. -/
def get_active_connections (st : ServerState) : Nat :=
  (st.pcs.filter (fun c => c = ConnState.connected)).length

/-- `WebRTCServer.handle_offer` (src/webrtc_server.py lines 99-150):
`create_peer_connection` unconditionally creates a new peer connection and
adds it to `self.pcs` — there is no capacity check and `config.max_sessions`
is never consulted — then negotiation (`setRemoteDescription` /
`createAnswer` / `setLocalDescription`, modelled by the `negotiate` oracle)
produces the answer SDP or raises.  The new peer connection stays in
`self.pcs` either way. -/
def handle_offer (negotiate : String → Except Unit String)
    (st : ServerState) (offer_sdp : String) :
    ServerState × Except Unit String :=
  ({ pcs := st.pcs ++ [ConnState.new] }, negotiate offer_sdp)

/-- Request body of `POST /signaling/offer`: the handler reads the optional
fields `offer` and `session_id` with `dict.get`. -/
structure OfferRequest where
  offer : Option String
  session_id : Option String
deriving DecidableEq, Repr

/-- Response body of `POST /signaling/offer`. -/
structure OfferResponse where
  answer : String
  session_id : String
deriving DecidableEq, Repr

/-- `handle_signaling_offer` (src/main.py lines 141-161): 503 when the
WebRTC server is missing and 400 when the offer SDP is missing or empty
(`if not offer_sdp`) — both raised inside the `try`, so the outer
`except Exception` converts every error path, including negotiation
failure, into a 500 response.  On success the response carries the answer
and `offer_data.get("session_id", "unknown")`. -/
def handle_signaling_offer (webrtcUp : Bool)
    (negotiate : String → Except Unit String)
    (st : ServerState) (offer_data : OfferRequest) :
    ServerState × Except Nat OfferResponse :=
  if webrtcUp = false then (st, .error 500)
  else
    match offer_data.offer with
    | none => (st, .error 500)
    | some sdp =>
      if sdp = "" then (st, .error 500)
      else
        match handle_offer negotiate st sdp with
        | (st', .error _) => (st', .error 500)
        | (st', .ok ans) =>
          (st', .ok { answer := ans,
                      session_id := offer_data.session_id.getD "unknown" })

/-- A pending offer as returned by `SignalingClient.receive_offer`: the
poll loop reads the optional fields `offer` and `session_id` with
`dict.get`. -/
structure OfferMsg where
  offer : Option String
  session_id : Option String
deriving DecidableEq, Repr

/-- One iteration of `signaling_polling_task` (src/main.py lines 181-197)
after the sleep, given the result of `receive_offer`: if an offer with a
non-empty SDP is present and the WebRTC server exists, `handle_offer`
negotiates and `send_answer(answer_sdp, session_id)` dispatches exactly one
answer tagged with the offer's `session_id`; the returned list collects the
`send_answer` calls made (answer, session id).  A negotiation exception is
caught by the loop's `except` — no dispatch happens that cycle. -/
def signaling_polling_iter (webrtcUp : Bool)
    (negotiate : String → Except Unit String)
    (st : ServerState) (offer? : Option OfferMsg) :
    ServerState × List (String × Option String) :=
  match offer? with
  | none => (st, [])
  | some msg =>
    if webrtcUp then
      match msg.offer with
      | none => (st, [])
      | some sdp =>
        if sdp = "" then (st, [])
        else
          match handle_offer negotiate st sdp with
          | (st', .error _) => (st', [])
          | (st', .ok ans) => (st', [(ans, msg.session_id)])
    else (st, [])

/-- Health snapshot sent by the health-reporting loop. -/
structure HealthPayload where
  status : String
  active_sessions : Nat
deriving DecidableEq, Repr

/-- One iteration of `health_reporting_task` (src/main.py lines 164-179)
after the sleep: it only gathers `get_active_connections` (and GPU
metrics, external) and posts them.  It performs no session mutation — in
particular there is no idle sweep anywhere in the program and
`config.idle_timeout` is never read outside its definition. -/
def health_reporting_iter (st : ServerState) : ServerState × HealthPayload :=
  (st, { status := "ok", active_sessions := get_active_connections st })

/-- `Config` (src/config.py) restricted to the session-policy fields, with
the environment-default values (`MAX_SESSIONS` default "1",
`IDLE_TIMEOUT` default "300", `HEALTH_CHECK_INTERVAL` default "30"). -/
structure Config where
  max_sessions : Nat := 1
  idle_timeout : Nat := 300
  health_check_interval : Nat := 30
deriving DecidableEq, Repr

/-- The global `config` instance with no environment overrides. -/
def config : Config := {}

/-! ## Concrete instances used by counterexamples and witnesses -/

/-- A 1×1 BGR frame with pixel value (7, 7, 7). -/
def tinyImg : NPFrame := { h := 1, w := 1, chan := some 3, px := [7, 7, 7] }

/-- A concrete input video frame. -/
def tinyFrame : VideoFrame := { img := tinyImg, pts := 42, time_base := 1 / 30 }

/-- A concrete detected face with low confidence. -/
def faceA : Face := { bbox := [0, 0, 8, 8], embedding := [1], det_score := 3 / 10 }

/-- A concrete detected face with high confidence. -/
def faceB : Face := { bbox := [9, 9, 20, 20], embedding := [2], det_score := 9 / 10 }

/-- Negotiation oracle that always succeeds with a fixed answer SDP. -/
def negOk : String → Except Unit String := fun _ => .ok "answer-sdp"

/-- Engine whose detector finds `faceA` then `faceB` (in that order) and
whose swapper succeeds returning the target frame. -/
def engineTwoFaces : SwapEngineModel :=
  { swapperSome := true, swapperHasGet := true,
    detect := fun _ => .ok [faceA, faceB],
    swapGet := fun t _ _ _ => .ok (some t) }

/-- Engine whose detector finds `faceA` and whose `swapper.get` returns
`None` — the "swap returned invalid output" scenario. -/
def engineSwapNone : SwapEngineModel :=
  { swapperSome := true, swapperHasGet := true,
    detect := fun _ => .ok [faceA],
    swapGet := fun _ _ _ _ => .ok none }

/-- Engine whose detector finds `faceA` and whose `swapper.get` always
raises — the "swap collaborator always failing" scenario. -/
def engineSwapRaise : SwapEngineModel :=
  { swapperSome := true, swapperHasGet := true,
    detect := fun _ => .ok [faceA],
    swapGet := fun _ _ _ _ => .error () }

/-- Engine whose detector never finds a face. -/
def engineNoFace : SwapEngineModel :=
  { swapperSome := true, swapperHasGet := true,
    detect := fun _ => .ok [],
    swapGet := fun t _ _ _ => .ok (some t) }

/-! ## Helper lemmas -/

lemma clip255_isU8 (x : ℚ) : isU8 (clip255 x) := by
  have h0 : (0 : ℚ) ≤ max 0 (min 255 x) := le_max_left _ _
  have h255 : max 0 (min 255 x) ≤ (255 : ℚ) :=
    max_le (by norm_num) (min_le_left _ _)
  have hf0 : (0 : ℤ) ≤ ⌊max 0 (min 255 x)⌋ := by
    exact Int.le_floor.mpr (by exact_mod_cast h0)
  have hf255 : ⌊max 0 (min 255 x)⌋ ≤ (255 : ℤ) := by
    have : ⌊max 0 (min 255 x)⌋ ≤ ⌊(255 : ℚ)⌋ := Int.floor_le_floor h255
    simpa using this
  refine ⟨(⌊max 0 (min 255 x)⌋).toNat, ?_, ?_⟩
  · omega
  · simp only [clip255]
    exact_mod_cast (Int.toNat_of_nonneg hf0).symm

lemma clip255_of_isU8 {v : ℚ} (hv : isU8 v) : clip255 v = v := by
  obtain ⟨n, hn, rfl⟩ := hv
  have h255 : (n : ℚ) ≤ 255 := by exact_mod_cast hn
  have h0 : (0 : ℚ) ≤ (n : ℚ) := by positivity
  simp only [clip255, min_eq_right h255, max_eq_right h0, Int.floor_natCast]
  rfl

lemma map_clip255_of_isU8 {l : List ℚ} (hl : ∀ v ∈ l, isU8 v) :
    l.map clip255 = l := by
  induction l with
  | nil => rfl
  | cons a t ih =>
    simp only [List.map_cons]
    rw [clip255_of_isU8 (hl a (by simp)), ih (fun v hv => hl v (by simp [hv]))]

lemma mem_grayToBgr {l : List ℚ} {v : ℚ} (hv : v ∈ grayToBgr l) : v ∈ l := by
  simp only [grayToBgr, List.mem_flatMap] at hv
  obtain ⟨a, ha, hva⟩ := hv
  simp only [List.mem_cons, List.not_mem_nil, or_false] at hva
  rcases hva with rfl | rfl | rfl <;> exact ha

lemma mem_bgraToBgr : ∀ {l : List ℚ} {v : ℚ}, v ∈ bgraToBgr l → v ∈ l
  | b :: g :: r :: a :: rest, v, hv => by
    simp only [bgraToBgr, List.mem_cons] at hv ⊢
    rcases hv with rfl | rfl | rfl | hv
    · exact Or.inl rfl
    · exact Or.inr (Or.inl rfl)
    · exact Or.inr (Or.inr (Or.inl rfl))
    · exact Or.inr (Or.inr (Or.inr (Or.inr (mem_bgraToBgr hv))))
  | [], v, hv => by simp [bgraToBgr] at hv
  | [b], v, hv => by simp [bgraToBgr] at hv
  | [b, g], v, hv => by simp [bgraToBgr] at hv
  | [b, g, r], v, hv => by simp [bgraToBgr] at hv

lemma mem_preprocess {f : NPFrame} {v : ℚ} (hv : v ∈ (preprocess_frame f).px) :
    v ∈ f.px := by
  unfold preprocess_frame at hv
  cases hc : f.chan with
  | none =>
    simp only [hc] at hv
    exact mem_grayToBgr hv
  | some c =>
    simp only [hc] at hv
    rcases eq_or_ne c 4 with rfl | h4
    · rw [if_pos rfl] at hv
      exact mem_bgraToBgr hv
    · rw [if_neg h4] at hv
      exact hv

lemma postprocess_of_isU8 (g : NPFrame) (hsz : g.size ≠ 0)
    (hpx : ∀ v ∈ g.px, isU8 v) : postprocess_frame (some g) = g := by
  have hdef : postprocess_frame (some g) =
      if g.size = 0 then blackFrame
      else { h := g.h, w := g.w, chan := g.chan, px := g.px.map clip255 } := rfl
  rw [hdef, if_neg hsz, map_clip255_of_isU8 hpx]

lemma captureStep_cached (e : SwapEngineModel) (sf : Face) (img : NPFrame) :
    captureStep e (some sf) img = .ok (some sf) := rfl

lemma stepFrame_cached (e : SwapEngineModel) (st : TrackState) (f : VideoFrame)
    (x : Face) (h : st.source_face = some x) :
    (stepFrame e st f).source_face = some x := by
  simp [stepFrame, recv, captureStep, h]

lemma runFrames_cached (e : SwapEngineModel) (st : TrackState)
    (frames : List VideoFrame) (x : Face) (h : st.source_face = some x) :
    (runFrames e st frames).source_face = some x := by
  induction frames generalizing st with
  | nil => simpa [runFrames] using h
  | cons f rest ih =>
    have h1 : (stepFrame e st f).source_face = some x := stepFrame_cached e st f x h
    simpa [runFrames, List.foldl_cons] using ih (stepFrame e st f) h1

lemma swap_face_of_swapGet_raise (e : SwapEngineModel) (src tgt : NPFrame)
    (sf : Face) (hraise : ∀ t tf s sf', e.swapGet t tf s sf' = .error ()) :
    e.swap_face src tgt (some sf) none = .ok (some tgt)
    ∨ e.swap_face src tgt (some sf) none = .error () := by
  unfold SwapEngineModel.swap_face
  by_cases hs : e.swapperSome = false
  · rw [if_pos hs]
    exact Or.inl rfl
  · rw [if_neg hs]
    rcases hd : e.detect tgt with u | faces
    · cases u
      simp [hd]
    · cases faces with
      | nil => simp [hd]
      | cons f fs =>
        simp only [hd]
        by_cases hg : (e.swapperSome && e.swapperHasGet) = true
        · rw [if_pos hg, hraise]
          exact Or.inl rfl
        · rw [if_neg hg]
          exact Or.inl rfl

lemma swapStage_of_swapGet_raise (e : SwapEngineModel) (sf : Face)
    (img : NPFrame)
    (hraise : ∀ t tf s sf', e.swapGet t tf s sf' = .error ()) :
    swapStage e (some sf) img = some img := by
  rcases swap_face_of_swapGet_raise e img img sf hraise with h | h <;>
    simp [swapStage, h]

lemma recv_of_swapGet_raise (e : SwapEngineModel) (st : TrackState)
    (f : VideoFrame) (sf : Face) (hsf : st.source_face = some sf)
    (hraise : ∀ t tf s sf', e.swapGet t tf s sf' = .error ()) :
    recv e st f =
      .ok ({ source_face := some sf, frame_count := st.frame_count + 1 },
           { img := postprocess_frame (some (preprocess_frame f.img)),
             pts := f.pts, time_base := f.time_base }) := by
  simp [recv, captureStep, hsf,
    swapStage_of_swapGet_raise e sf (preprocess_frame f.img) hraise]

/-! ## Claim theorems -/

/-- C1: the claim says admissions beyond `max_sessions` return
`CapacityError` and create no session; the code enforces no capacity at
all.  With the default configuration (`max_sessions = 1`), a push-path
offer followed by a pull-path offer both succeed — the second is answered,
not rejected — and afterwards two non-terminal sessions exist, exceeding
`config.max_sessions`.  No admission path ever consults
`config.max_sessions` (it is referenced nowhere outside src/config.py). -/
theorem c1_capacity_never_enforced :
    config.max_sessions = 1
    ∧ (handle_signaling_offer true negOk { pcs := [] }
        { offer := some "sdp-o1", session_id := some "s1" }).2
        = .ok { answer := "answer-sdp", session_id := "s1" }
    ∧ (signaling_polling_iter true negOk
        (handle_signaling_offer true negOk { pcs := [] }
          { offer := some "sdp-o1", session_id := some "s1" }).1
        (some { offer := some "sdp-o2", session_id := some "s2" })).2
        = [("answer-sdp", some "s2")]
    ∧ nonTerminalCount (signaling_polling_iter true negOk
        (handle_signaling_offer true negOk { pcs := [] }
          { offer := some "sdp-o1", session_id := some "s1" }).1
        (some { offer := some "sdp-o2", session_id := some "s2" })).1 = 2
    ∧ config.max_sessions < 2 :=
  ⟨rfl, rfl, rfl, rfl, by decide⟩

/-- C2: the claim says the next idle sweep closes and removes every
session idle longer than `idle_timeout`; the code has no idle sweep.  The
only periodic task tied to the health-check interval,
`health_reporting_task`, leaves the session set of every server state
completely unchanged (and `config.idle_timeout` is referenced nowhere
outside src/config.py), so an idle session still contributes to
`get_active_connections` afterwards. -/
theorem c2_no_idle_sweep (st : ServerState) :
    (health_reporting_iter st).1 = st
    ∧ (health_reporting_iter st).2.active_sessions = get_active_connections st
    ∧ get_active_connections (health_reporting_iter st).1
        = get_active_connections st :=
  ⟨rfl, rfl, rfl⟩

/-- C3: once `self.source_face` holds a captured identity it never changes
for the rest of the track's life (`recv` only assigns it when it is
`None`), and while it is empty every `recv` call attempts capture: the
cache after the frame is exactly the first face of that frame's detector
output (staying empty when the detector returns none). -/
theorem c3_identity_cache_stable (e : SwapEngineModel) (st : TrackState)
    (frames : List VideoFrame) :
    (∀ x, st.source_face = some x →
      (runFrames e st frames).source_face = some x)
    ∧ (∀ f faces, st.source_face = none →
        e.detect (preprocess_frame f.img) = .ok faces →
        (stepFrame e st f).source_face = faces.head?) := by
  constructor
  · intro x h
    exact runFrames_cached e st frames x h
  · intro f faces h0 hdet
    simp [stepFrame, recv, captureStep, h0, hdet]

/-- Witness for C3 at concrete inputs: a cached `faceA` survives a
processed frame, and an empty cache picks up the head of the detector
output. -/
theorem c3_witness :
    (runFrames engineTwoFaces { source_face := some faceA, frame_count := 0 }
        [tinyFrame]).source_face = some faceA
    ∧ (stepFrame engineTwoFaces { source_face := none, frame_count := 0 }
        tinyFrame).source_face = some faceA :=
  ⟨(c3_identity_cache_stable engineTwoFaces
      { source_face := some faceA, frame_count := 0 } [tinyFrame]).1 faceA rfl,
   (c3_identity_cache_stable engineTwoFaces
      { source_face := none, frame_count := 0 } []).2 tinyFrame [faceA, faceB]
      rfl rfl⟩

/-- C4 counterexample: the detector returns `faceA` (score 3/10) then
`faceB` (score 9/10); the code caches `faces[0] = faceA`, but the claim's
highest-confidence rule (`bestFace`, transcribed from the spec) selects
`faceB`, and the two differ. -/
theorem c4_counterexample :
    (recv engineTwoFaces { source_face := none, frame_count := 0 }
        tinyFrame).map (fun p => p.1.source_face) = .ok (some faceA)
    ∧ bestFace [faceA, faceB] = some faceB
    ∧ faceA ≠ faceB := by
  refine ⟨rfl, ?_, ?_⟩
  · simp only [bestFace, List.foldl_cons, List.foldl_nil]
    norm_num [faceA, faceB]
  · intro h
    exact absurd (congrArg Face.bbox h) (by decide)

/-- C4 amended: the cached identity is the FIRST face in detector output
order, irrespective of confidence scores. -/
theorem c4_amended_first_face (e : SwapEngineModel) (st : TrackState)
    (f : VideoFrame) (faces : List Face) (h0 : st.source_face = none)
    (hdet : e.detect (preprocess_frame f.img) = .ok faces) :
    (recv e st f).map (fun p => p.1.source_face) = .ok faces.head? := by
  simp [recv, captureStep, h0, hdet, Except.map]

/-- Witness for C4 amended at a concrete two-face detector output. -/
theorem c4_witness :
    (recv engineTwoFaces { source_face := none, frame_count := 0 }
        tinyFrame).map (fun p => p.1.source_face) = .ok (some faceA) :=
  c4_amended_first_face engineTwoFaces
    { source_face := none, frame_count := 0 } tinyFrame [faceA, faceB] rfl rfl

/-- C5: every frame `recv` returns carries the input frame's `pts` and
`time_base` unchanged (`new_frame.pts = frame.pts`,
`new_frame.time_base = frame.time_base` — src/webrtc_server.py lines
73-74); only pixel content is touched. -/
theorem c5_timestamp_passthrough (e : SwapEngineModel) (st : TrackState)
    (f : VideoFrame) (p : TrackState × VideoFrame)
    (h : recv e st f = .ok p) :
    p.2.pts = f.pts ∧ p.2.time_base = f.time_base := by
  simp only [recv] at h
  cases hc : captureStep e st.source_face (preprocess_frame f.img) with
  | error u => rw [hc] at h; exact absurd h (by simp)
  | ok sf? =>
    rw [hc] at h
    have h' := (Except.ok.injEq _ _).mp h
    rw [← h']
    exact ⟨rfl, rfl⟩

/-- The concrete result of `recv` on `tinyFrame` with no detectable face. -/
def recvNoFacePair : TrackState × VideoFrame :=
  ({ source_face := none, frame_count := 1 },
   { img := postprocess_frame (some (preprocess_frame tinyImg)),
     pts := 42, time_base := 1 / 30 })

/-- Witness for C5 at a concrete frame. -/
theorem c5_witness :
    recvNoFacePair.2.pts = tinyFrame.pts
    ∧ recvNoFacePair.2.time_base = tinyFrame.time_base :=
  c5_timestamp_passthrough engineNoFace
    { source_face := none, frame_count := 0 } tinyFrame recvNoFacePair rfl

/-- C6 counterexample: when the swap collaborator fails by RETURNING
invalid output rather than raising — here `swapper.get` returns `None`,
so `img = self.swap_engine.swap_face(...)` becomes `None` — the pipeline
does not substitute the current frame unmodified: `postprocess_frame`
replaces it with the fixed 480×640 black frame, which differs from the
(1×1) normalized input frame. -/
theorem c6_counterexample :
    (recv engineSwapNone { source_face := some faceA, frame_count := 0 }
        tinyFrame).map (fun p => p.2.img) = .ok blackFrame
    ∧ blackFrame ≠ preprocess_frame tinyFrame.img := by
  refine ⟨rfl, ?_⟩
  intro h
  exact absurd (congrArg NPFrame.h h) (by decide)

/-- C6 amended: when the swap collaborator fails by RAISING, the pipeline
does not raise and substitutes the current frame unmodified (only the
always-run clip of `postprocess_frame` touches it); a run of any number of
consecutive frames with `swapper.get` always raising yields one valid
output per input — each equal to its input after normalization and
clipping — with the cached identity intact and no failure surfaced (an
invalid RETURN value is instead replaced by the black frame, per
`c6_counterexample`). -/
theorem c6_amended_raise_substitutes (e : SwapEngineModel) (st : TrackState)
    (sf : Face) (frames : List VideoFrame) (hsf : st.source_face = some sf)
    (hraise : ∀ t tf s sf', e.swapGet t tf s sf' = .error ()) :
    runAll e st frames =
      .ok ({ source_face := some sf,
             frame_count := st.frame_count + frames.length },
           frames.map (fun f =>
             { img := postprocess_frame (some (preprocess_frame f.img)),
               pts := f.pts, time_base := f.time_base })) := by
  induction frames generalizing st with
  | nil =>
    obtain ⟨c, n⟩ := st
    simp only [TrackState.mk.injEq] at hsf
    subst hsf
    simp [runAll]
  | cons f rest ih =>
    have hst' : (TrackState.mk (some sf) (st.frame_count + 1)).source_face
        = some sf := rfl
    simp only [runAll, recv_of_swapGet_raise e st f sf hsf hraise,
      ih { source_face := some sf, frame_count := st.frame_count + 1 } hst',
      List.map_cons, List.length_cons]
    refine congrArg _ (congrArg (fun n => (_, _)) ?_)
    omega

/-- Witness for C6 amended: 100 consecutive frames with `swapper.get`
always raising produce 100 valid outputs, each the normalized-and-clipped
input, and the cached identity survives. -/
theorem c6_witness :
    runAll engineSwapRaise { source_face := some faceA, frame_count := 0 }
        (List.replicate 100 tinyFrame) =
      .ok ({ source_face := some faceA,
             frame_count := 0 + (List.replicate 100 tinyFrame).length },
           (List.replicate 100 tinyFrame).map (fun f =>
             { img := postprocess_frame (some (preprocess_frame f.img)),
               pts := f.pts, time_base := f.time_base })) :=
  c6_amended_raise_substitutes engineSwapRaise
    { source_face := some faceA, frame_count := 0 } faceA
    (List.replicate 100 tinyFrame) rfl (fun _ _ _ _ => rfl)

/-- C7: `postprocess_frame` yields only uint8 samples (integers in
[0, 255]); a `None` or zero-size input is replaced by the fixed
480×640×3 black frame; any other frame keeps its shape with every sample
clipped and quantized by `clip255`. -/
theorem c7_postprocess_clip (f? : Option NPFrame) :
    (∀ v ∈ (postprocess_frame f?).px, isU8 v)
    ∧ (f? = none → postprocess_frame f? = blackFrame)
    ∧ (∀ g, f? = some g → g.size = 0 → postprocess_frame f? = blackFrame)
    ∧ (∀ g, f? = some g → g.size ≠ 0 →
        postprocess_frame f? =
          { h := g.h, w := g.w, chan := g.chan, px := g.px.map clip255 }) := by
  refine ⟨?_, ?_, ?_, ?_⟩
  · intro v hv
    cases f? with
    | none =>
      rw [List.eq_of_mem_replicate hv]
      exact ⟨0, by norm_num⟩
    | some g =>
      have hdef : postprocess_frame (some g) =
          if g.size = 0 then blackFrame
          else { h := g.h, w := g.w, chan := g.chan,
                 px := g.px.map clip255 } := rfl
      rw [hdef] at hv
      by_cases hsz : g.size = 0
      · rw [if_pos hsz] at hv
        rw [List.eq_of_mem_replicate hv]
        exact ⟨0, by norm_num⟩
      · rw [if_neg hsz] at hv
        obtain ⟨x, _, rfl⟩ := List.mem_map.mp hv
        exact clip255_isU8 x
  · rintro rfl
    rfl
  · rintro g rfl hsz
    have hdef : postprocess_frame (some g) =
        if g.size = 0 then blackFrame
        else { h := g.h, w := g.w, chan := g.chan,
               px := g.px.map clip255 } := rfl
    rw [hdef, if_pos hsz]
  · rintro g rfl hsz
    have hdef : postprocess_frame (some g) =
        if g.size = 0 then blackFrame
        else { h := g.h, w := g.w, chan := g.chan,
               px := g.px.map clip255 } := rfl
    rw [hdef, if_neg hsz]

/-- Witness for C7: the `None` branch, a zero-size branch, and the
clip-and-quantize branch at an out-of-range sample. -/
theorem c7_witness :
    postprocess_frame none = blackFrame
    ∧ postprocess_frame (some { h := 0, w := 3, chan := some 3, px := [] })
        = blackFrame
    ∧ postprocess_frame (some { h := 1, w := 1, chan := some 1, px := [300] })
        = { h := 1, w := 1, chan := some 1, px := [clip255 300] } := by
  refine ⟨(c7_postprocess_clip none).2.1 rfl,
          (c7_postprocess_clip _).2.2.1 _ rfl (by decide),
          (c7_postprocess_clip _).2.2.2 _ rfl (by decide)⟩

/-- C8: a frame with no detectable face, processed with an empty identity
cache, comes out with pixel content exactly equal to the input after
layout normalization: `recv` returns the preprocessed frame itself (the
clip is the identity on uint8-valued data), with timestamps intact and
the cache still empty. -/
theorem c8_noface_passthrough (e : SwapEngineModel) (st : TrackState)
    (f : VideoFrame) (h0 : st.source_face = none)
    (hdet : e.detect (preprocess_frame f.img) = .ok [])
    (hsz : (preprocess_frame f.img).size ≠ 0)
    (hpx : ∀ v ∈ f.img.px, isU8 v) :
    recv e st f =
      .ok ({ source_face := none, frame_count := st.frame_count + 1 },
           { img := preprocess_frame f.img, pts := f.pts,
             time_base := f.time_base }) := by
  have hpre : ∀ v ∈ (preprocess_frame f.img).px, isU8 v :=
    fun v hv => hpx v (mem_preprocess hv)
  simp [recv, captureStep, h0, hdet, swapStage,
    postprocess_of_isU8 _ hsz hpre]

/-- Witness for C8 at a concrete uint8 BGR frame. -/
theorem c8_witness :
    recv engineNoFace { source_face := none, frame_count := 0 } tinyFrame =
      .ok ({ source_face := none, frame_count := 0 + 1 },
           { img := preprocess_frame tinyFrame.img, pts := tinyFrame.pts,
             time_base := tinyFrame.time_base }) := by
  refine c8_noface_passthrough engineNoFace
    { source_face := none, frame_count := 0 } tinyFrame rfl rfl (by decide) ?_
  intro v hv
  simp only [tinyFrame, tinyImg, List.mem_cons, List.not_mem_nil,
    or_false] at hv
  rcases hv with rfl | rfl | rfl <;> exact ⟨7, by norm_num⟩

/-- C9: for a polled offer carrying a session id, once negotiation
completes the poll-loop iteration dispatches exactly one answer via
`send_answer`, tagged with the same session id. -/
theorem c9_poll_answer_dispatch (negotiate : String → Except Unit String)
    (st : ServerState) (sdp sid ans : String)
    (hsdp : sdp ≠ "") (hneg : negotiate sdp = .ok ans) :
    (signaling_polling_iter true negotiate st
        (some { offer := some sdp, session_id := some sid })).2
      = [(ans, some sid)] := by
  simp [signaling_polling_iter, handle_offer, hsdp, hneg]

/-- Witness for C9 at a concrete polled offer for session "s1". -/
theorem c9_witness :
    (signaling_polling_iter true negOk { pcs := [] }
        (some { offer := some "sdp-o3", session_id := some "s1" })).2
      = [("answer-sdp", some "s1")] :=
  c9_poll_answer_dispatch negOk { pcs := [] } "sdp-o3" "s1" "answer-sdp"
    (by decide) rfl

/-- C10: a push-path offer whose body has an offer SDP but no
`session_id` field succeeds and the response's `session_id` is the
literal string "unknown" (`offer_data.get("session_id", "unknown")`). -/
theorem c10_missing_session_id_unknown (negotiate : String → Except Unit String)
    (st : ServerState) (sdp ans : String)
    (hsdp : sdp ≠ "") (hneg : negotiate sdp = .ok ans) :
    (handle_signaling_offer true negotiate st
        { offer := some sdp, session_id := none }).2
      = .ok { answer := ans, session_id := "unknown" } := by
  simp [handle_signaling_offer, handle_offer, hsdp, hneg]

/-- Witness for C10 at a concrete offer body without a session id. -/
theorem c10_witness :
    (handle_signaling_offer true negOk { pcs := [] }
        { offer := some "sdp-o4", session_id := none }).2
      = .ok { answer := "answer-sdp", session_id := "unknown" } :=
  c10_missing_session_id_unknown negOk { pcs := [] } "sdp-o4" "answer-sdp"
    (by decide) rfl
